import Mathlib

/-!
Verification of the dynamic NBI example client
(`examples/nbi_client_py/main.py`): a shallow embedding of its data model,
schema registry, RPC wrapper, scenario-builder operations, snapshot printers
and driver routine, together with theorems settling the specified properties.

Modelling conventions:
* Protobuf messages become Lean structures.  The nested
  `coordinates.ecef_fixed.point` chain of `PlatformDefinition` is collapsed to
  a single optional Cartesian point, following the spec's data model
  ("a position (fixed earth-centered coordinate triple in meters)", modelled
  "as an `Optional<Coordinate>`"); `none` models the printer's attribute chain
  yielding no point.
* Coordinate scalars are Python floats in the source; the driver only ever
  supplies whole-meter values, so they are embedded as `Int`, and the
  `%.1f` rendering of a whole float is `fmtMeters`.
* Console output is modelled as the list of strings passed to `print`, one
  list element per `print` call.
-/

/-- A fixed earth-centered Cartesian coordinate triple in meters
(the `point` message with fields `x_m`, `y_m`, `z_m`). -/
structure CartesianPoint where
  x_m : Int
  y_m : Int
  z_m : Int
  deriving DecidableEq, Repr

/-- Message `aalyria.spacetime.api.common.PlatformDefinition`: identity, category
string, motion-source enum number, optional position. -/
structure PlatformDefinition where
  name : String
  type : String
  motion_source : Int
  coordinates : Option CartesianPoint
  deriving DecidableEq, Repr

/-- Message `aalyria.spacetime.api.common.TransceiverModelId`. -/
structure TransceiverModelId where
  transceiver_model_id : String
  deriving DecidableEq, Repr

/-- The `wireless` submessage of a `NetworkInterface`: owning platform id and
transceiver-model reference. -/
structure WirelessInterface where
  platform : String
  transceiver_model_id : TransceiverModelId
  deriving DecidableEq, Repr

/-- Message `aalyria.spacetime.api.nbi.v1alpha.resources.NetworkInterface`. -/
structure NetworkInterface where
  interface_id : String
  wireless : WirelessInterface
  deriving DecidableEq, Repr

/-- Message `aalyria.spacetime.api.nbi.v1alpha.resources.NetworkNode`: identifier,
category string, ordered list of interfaces. -/
structure NetworkNode where
  node_id : String
  type : String
  node_interface : List NetworkInterface
  deriving DecidableEq, Repr

/-- Message `aalyria.spacetime.api.nbi.v1alpha.resources.BidirectionalLink`: two
(node, transmit-interface, receive-interface) endpoint triples. -/
structure BidirectionalLink where
  a_network_node_id : String
  a_tx_interface_id : String
  a_rx_interface_id : String
  b_network_node_id : String
  b_tx_interface_id : String
  b_rx_interface_id : String
  deriving DecidableEq, Repr

/-- Message `aalyria.spacetime.api.nbi.v1alpha.ScenarioSnapshot`: aggregate of all
platforms, nodes and links known to the remote service. -/
structure ScenarioSnapshot where
  platforms : List PlatformDefinition
  nodes : List NetworkNode
  links : List BidirectionalLink
  deriving DecidableEq, Repr

/-- Message `aalyria.spacetime.api.nbi.v1alpha.ClearScenarioRequest` (no fields). -/
structure ClearScenarioRequest where
  deriving DecidableEq, Repr

/-- Message `aalyria.spacetime.api.nbi.v1alpha.GetScenarioRequest` (no fields). -/
structure GetScenarioRequest where
  deriving DecidableEq, Repr

/-- Message `google.protobuf.Empty`, the response type of `ClearScenario`. -/
structure EmptyMessage where
  deriving DecidableEq, Repr

/-- Rendering of a whole-meter coordinate scalar, as Python's `%.1f` renders
the whole-valued floats the driver supplies. -/
def fmtMeters (v : Int) : String :=
  toString v ++ ".0"

/-- The coordinate text of one platform line in `print_platforms`
(`main.py` lines 129-132): the placeholder `n/a` when the attribute chain
yields no point, otherwise the formatted triple. -/
def formatCoord : Option CartesianPoint → String
  | none => "n/a"
  | some pt =>
      "(" ++ fmtMeters pt.x_m ++ ", " ++ fmtMeters pt.y_m ++ ", "
        ++ fmtMeters pt.z_m ++ ") m"

/-- Function `print_platforms` (`main.py` lines 126-133): header line then one line
per platform. -/
def print_platforms (platforms : List PlatformDefinition) (indent : String) :
    List String :=
  (indent ++ "Platforms:") ::
    platforms.map fun p =>
      indent ++ "- " ++ p.name ++ " [" ++ p.type ++ "] coords="
        ++ formatCoord p.coordinates

/-- Function `print_nodes` (`main.py` lines 136-143): header line, then per node one
line plus one line per interface. -/
def print_nodes (nodes : List NetworkNode) (indent : String) : List String :=
  (indent ++ "Nodes:") ::
    nodes.foldr
      (fun n acc =>
        (indent ++ "- " ++ n.node_id ++ " [" ++ n.type ++ "]") ::
          (n.node_interface.map fun iface =>
            indent ++ "  interface " ++ iface.interface_id ++ " platform="
              ++ iface.wireless.platform ++ " trx="
              ++ iface.wireless.transceiver_model_id.transceiver_model_id)
          ++ acc)
      []

/-- Function `print_links` (`main.py` lines 146-152): header line then one line per
link, showing each endpoint as node id and transmit-interface id. -/
def print_links (links : List BidirectionalLink) (indent : String) :
    List String :=
  (indent ++ "Links:") ::
    links.map fun l =>
      indent ++ "- " ++ l.a_network_node_id ++ "/" ++ l.a_tx_interface_id
        ++ " <-> " ++ l.b_network_node_id ++ "/" ++ l.b_tx_interface_id

/-!
## Wire form

Modelled from the spec: the serialization performed by the external protobuf
library (`SerializeToString` / `ParseFromString`), which is not part of this
repository.  The spec declares the byte-level layout a non-goal ("no original
serialization format is defined"), so the wire form is a token stream; each
message type has an encoder and a prefix-consuming decoder that returns the
decoded value together with the unconsumed tail.
-/

/-- Modelled from the spec: one token of the wire form produced by the
external protobuf serializer, which is not part of this repository. -/
inductive WireItem
  | nat (v : Nat)
  | int (v : Int)
  | str (v : String)
  deriving DecidableEq, Repr

/-- The wire form of a message: a token stream. -/
abbrev Wire := List WireItem

/-- Encode a Cartesian point. -/
def encPoint (p : CartesianPoint) : Wire :=
  [.int p.x_m, .int p.y_m, .int p.z_m]

/-- Decode a Cartesian point off the front of a token stream. -/
def decPoint : Wire → Option (CartesianPoint × Wire)
  | .int x :: .int y :: .int z :: rest => some (⟨x, y, z⟩, rest)
  | _ => none

/-- Encode an optional point: a presence marker, then the point if present. -/
def encOptPoint : Option CartesianPoint → Wire
  | none => [.nat 0]
  | some p => .nat 1 :: encPoint p

/-- Decode an optional point. -/
def decOptPoint : Wire → Option (Option CartesianPoint × Wire)
  | .nat 0 :: rest => some (none, rest)
  | .nat 1 :: rest => (decPoint rest).map fun pr => (some pr.1, pr.2)
  | _ => none

/-- Encode a `PlatformDefinition`. -/
def encPlatform (p : PlatformDefinition) : Wire :=
  .str p.name :: .str p.type :: .int p.motion_source
    :: encOptPoint p.coordinates

/-- Decode a `PlatformDefinition`. -/
def decPlatform : Wire → Option (PlatformDefinition × Wire)
  | .str n :: .str t :: .int m :: rest =>
      (decOptPoint rest).map fun cr => (⟨n, t, m, cr.1⟩, cr.2)
  | _ => none

/-- Encode a `NetworkInterface`. -/
def encInterface (i : NetworkInterface) : Wire :=
  [.str i.interface_id, .str i.wireless.platform,
   .str i.wireless.transceiver_model_id.transceiver_model_id]

/-- Decode a `NetworkInterface`. -/
def decInterface : Wire → Option (NetworkInterface × Wire)
  | .str i :: .str p :: .str t :: rest => some (⟨i, ⟨p, ⟨t⟩⟩⟩, rest)
  | _ => none

/-- Encode a repeated field: element count, then the encoded elements. -/
def encRepeated (enc : α → Wire) (xs : List α) : Wire :=
  .nat xs.length :: xs.foldr (fun x acc => enc x ++ acc) []

/-- Decode exactly `count` elements. -/
def decRepeatedAux (dec : Wire → Option (α × Wire)) :
    Nat → Wire → Option (List α × Wire)
  | 0, rest => some ([], rest)
  | count + 1, rest =>
      match dec rest with
      | some (a, rest') =>
          (decRepeatedAux dec count rest').map fun asr => (a :: asr.1, asr.2)
      | none => none

/-- Decode a repeated field: read the element count, then the elements. -/
def decRepeated (dec : Wire → Option (α × Wire)) :
    Wire → Option (List α × Wire)
  | .nat count :: rest => decRepeatedAux dec count rest
  | _ => none

/-- Encode a `NetworkNode`. -/
def encNode (n : NetworkNode) : Wire :=
  .str n.node_id :: .str n.type :: encRepeated encInterface n.node_interface

/-- Decode a `NetworkNode`. -/
def decNode : Wire → Option (NetworkNode × Wire)
  | .str i :: .str t :: rest =>
      (decRepeated decInterface rest).map fun ir => (⟨i, t, ir.1⟩, ir.2)
  | _ => none

/-- Encode a `BidirectionalLink`. -/
def encLink (l : BidirectionalLink) : Wire :=
  [.str l.a_network_node_id, .str l.a_tx_interface_id,
   .str l.a_rx_interface_id, .str l.b_network_node_id,
   .str l.b_tx_interface_id, .str l.b_rx_interface_id]

/-- Decode a `BidirectionalLink`. -/
def decLink : Wire → Option (BidirectionalLink × Wire)
  | .str an :: .str atx :: .str arx :: .str bn :: .str btx :: .str brx
      :: rest => some (⟨an, atx, arx, bn, btx, brx⟩, rest)
  | _ => none

/-- Encode a `ScenarioSnapshot`. -/
def encSnapshot (s : ScenarioSnapshot) : Wire :=
  encRepeated encPlatform s.platforms ++ encRepeated encNode s.nodes
    ++ encRepeated encLink s.links

/-- Decode a `ScenarioSnapshot`. -/
def decSnapshot (w : Wire) : Option (ScenarioSnapshot × Wire) :=
  match decRepeated decPlatform w with
  | some (ps, rest) =>
      match decRepeated decNode rest with
      | some (ns, rest') =>
          (decRepeated decLink rest').map fun lr => (⟨ps, ns, lr.1⟩, lr.2)
      | none => none
  | none => none

/-- Encode a `ClearScenarioRequest` (no fields). -/
def encClearScenarioRequest (_ : ClearScenarioRequest) : Wire := []

/-- Decode a `ClearScenarioRequest`. -/
def decClearScenarioRequest (w : Wire) :
    Option (ClearScenarioRequest × Wire) :=
  some (⟨⟩, w)

/-- Encode a `GetScenarioRequest` (no fields). -/
def encGetScenarioRequest (_ : GetScenarioRequest) : Wire := []

/-- Decode a `GetScenarioRequest`. -/
def decGetScenarioRequest (w : Wire) : Option (GetScenarioRequest × Wire) :=
  some (⟨⟩, w)

/-- Encode a `google.protobuf.Empty` (no fields). -/
def encEmptyMessage (_ : EmptyMessage) : Wire := []

/-- Decode a `google.protobuf.Empty`. -/
def decEmptyMessage (w : Wire) : Option (EmptyMessage × Wire) :=
  some (⟨⟩, w)

/-- Method `DynamicNBI._parse` (`main.py` lines 55-58): deserialize a byte string
into a fresh instance of the target type; the whole input must be consumed. -/
def parseMessage (dec : Wire → Option (α × Wire)) (data : Wire) : Option α :=
  match dec data with
  | some (a, []) => some a
  | _ => none

/-!
## Schema registry

`DynamicNBI.__init__` loads a `FileDescriptorSet` into a `DescriptorPool` and
resolves message and enum types by fully-qualified name.  Modelled from the
spec: the pool lookup itself is the external protobuf library
(`FindMessageTypeByName` / `FindEnumTypeByName` raising for absent names, the
spec's `SchemaLookupError`); the pool is an association list keyed by
fully-qualified name.
-/

/-- A message-type descriptor in the pool, identified by its fully-qualified
name; `GetPrototype` turns it into a usable type handle. -/
structure MessageDescriptor where
  full_name : String
  deriving DecidableEq, Repr

/-- An enum-type descriptor: fully-qualified name and its `values_by_name`
table mapping value names to numbers. -/
structure EnumDescriptor where
  full_name : String
  values_by_name : List (String × Int)
  deriving DecidableEq, Repr

/-- The descriptor pool built from the descriptor bundle: message and enum
descriptors addressable by fully-qualified name. -/
structure DescriptorPool where
  messages : List (String × MessageDescriptor)
  enums : List (String × EnumDescriptor)
  deriving DecidableEq, Repr

/-- The spec's `SchemaLookupError`: a name absent from the descriptor
bundle. -/
inductive SchemaLookupError
  | notFound (name : String)
  deriving DecidableEq, Repr

/-- First-match lookup in an association list keyed by name. -/
def findByName : List (String × α) → String → Option α
  | [], _ => none
  | (k, v) :: rest, name => if k = name then some v else findByName rest name

/-- Modelled from the spec: the library lookup `pool.FindMessageTypeByName`
composed with `GetPrototype`
(`DynamicNBI._msg`, `main.py` lines 52-53): resolve a fully-qualified message
name to its type handle, failing with `SchemaLookupError` if absent. -/
def resolveMessageType (pool : DescriptorPool) (name : String) :
    Except SchemaLookupError MessageDescriptor :=
  match findByName pool.messages name with
  | some d => .ok d
  | none => .error (.notFound name)

/-- Modelled from the spec: the library lookup `pool.FindEnumTypeByName`, which
is not part of this repository; resolve a fully-qualified enum name, failing
with `SchemaLookupError` if absent. -/
def findEnumTypeByName (pool : DescriptorPool) (name : String) :
    Except SchemaLookupError EnumDescriptor :=
  match findByName pool.enums name with
  | some d => .ok d
  | none => .error (.notFound name)

/-- Enum-value resolution as in `DynamicNBI.__init__` (`main.py` lines
49-50): find the enum type, then the named value's number in its
`values_by_name` table; fails with `SchemaLookupError` if either is
absent. -/
def resolveEnumValue (pool : DescriptorPool) (enumName valueName : String) :
    Except SchemaLookupError Int :=
  match findEnumTypeByName pool enumName with
  | .error e => .error e
  | .ok ed =>
      match findByName ed.values_by_name valueName with
      | some n => .ok n
      | none => .error (.notFound valueName)

/-!
## RPC client wrapper
-/

/-- Method path of `ScenarioService/ClearScenario` (`main.py` line 70). -/
def clearScenarioMethod : String :=
  "/aalyria.spacetime.api.nbi.v1alpha.ScenarioService/ClearScenario"

/-- Method path of `PlatformService/CreatePlatform` (`main.py` line 84). -/
def createPlatformMethod : String :=
  "/aalyria.spacetime.api.nbi.v1alpha.PlatformService/CreatePlatform"

/-- Method path of `NetworkNodeService/CreateNode` (`main.py` line 99). -/
def createNodeMethod : String :=
  "/aalyria.spacetime.api.nbi.v1alpha.NetworkNodeService/CreateNode"

/-- Method path of `NetworkLinkService/CreateLink` (`main.py` line 113). -/
def createLinkMethod : String :=
  "/aalyria.spacetime.api.nbi.v1alpha.NetworkLinkService/CreateLink"

/-- Method path of `ScenarioService/GetScenario` (`main.py` line 120). -/
def getScenarioMethod : String :=
  "/aalyria.spacetime.api.nbi.v1alpha.ScenarioService/GetScenario"

/-- Modelled from the spec: the outcome of one attempt on the channel.  The
gRPC runtime, which is not part of this repository, either delivers response bytes, exceeds
the deadline, fails to connect, or surfaces a remote status rejection. -/
inductive TransportOutcome
  | ok (data : Wire)
  | timedOut
  | transportFailure
  | statusRejected (code : Nat) (message : String)
  deriving DecidableEq, Repr

/-- The open channel: a response oracle taking the method path, the serialized
request and the per-call timeout. -/
abbrev Channel := String → Wire → Rat → TransportOutcome

/-- The spec's RPC error taxonomy (section 7).  `RpcDecodeError` covers a
response that fails to deserialize. -/
inductive RpcError
  | RpcTimeoutError
  | RpcTransportError
  | RpcStatusError (code : Nat) (message : String)
  | RpcDecodeError
  deriving DecidableEq, Repr

/-- One issued remote call: method path and serialized request. -/
structure RpcCall where
  method : String
  request : Wire
  deriving DecidableEq, Repr

/-- The state of a `DynamicNBI` client after construction: the channel, the
per-call timeout, the descriptor pool (type registry), the resolved message
prototypes and the resolved `UNKNOWN_SOURCE` enum number
(`main.py` lines 25-50). -/
structure Client where
  channel : Channel
  timeout : Rat
  pool : DescriptorPool
  PlatformDefinition_proto : MessageDescriptor
  NetworkNode_proto : MessageDescriptor
  NetworkInterface_proto : MessageDescriptor
  BidirectionalLink_proto : MessageDescriptor
  TransceiverModelId_proto : MessageDescriptor
  ClearScenarioRequest_proto : MessageDescriptor
  GetScenarioRequest_proto : MessageDescriptor
  ScenarioSnapshot_proto : MessageDescriptor
  motion_unknown : Int

/-- Method `DynamicNBI._unary` (`main.py` lines 60-66): serialize the request, issue
one unary call on the channel with the configured timeout, and deserialize
the response bytes into a fresh instance of the target type.  Returns the
list of issued calls (exactly one) together with the result. -/
def unary (c : Client) (method : String) (request : ρ) (enc : ρ → Wire)
    (dec : Wire → Option (σ × Wire)) :
    List RpcCall × Except RpcError σ :=
  ([⟨method, enc request⟩],
    match c.channel method (enc request) c.timeout with
    | .ok data =>
        match parseMessage dec data with
        | some resp => .ok resp
        | none => .error .RpcDecodeError
    | .timedOut => .error .RpcTimeoutError
    | .transportFailure => .error .RpcTransportError
    | .statusRejected code msg => .error (.RpcStatusError code msg))

/-- The `PlatformDefinition` message constructed by `create_platform`
(`main.py` lines 76-82). -/
def mkPlatformMessage (c : Client) (name typ : String)
    (coords : Int × Int × Int) : PlatformDefinition :=
  { name := name, type := typ, motion_source := c.motion_unknown,
    coordinates := some ⟨coords.1, coords.2.1, coords.2.2⟩ }

/-- The `NetworkNode` message constructed by `create_node`
(`main.py` lines 90-97). -/
def mkNodeMessage (node_id platform_id iface_id transceiver_id : String) :
    NetworkNode :=
  { node_id := node_id, type := "ROUTER",
    node_interface := [⟨iface_id, ⟨platform_id, ⟨transceiver_id⟩⟩⟩] }

/-- The `BidirectionalLink` message constructed by `create_link`
(`main.py` lines 105-111). -/
def mkLinkMessage (a_node a_iface b_node b_iface : String) :
    BidirectionalLink :=
  { a_network_node_id := a_node, a_tx_interface_id := a_iface,
    a_rx_interface_id := a_iface, b_network_node_id := b_node,
    b_tx_interface_id := b_iface, b_rx_interface_id := b_iface }

/-- Method `DynamicNBI.clear_scenario` (`main.py` lines 68-73): issue
`ClearScenario` and discard the `Empty` response (the Python method returns
`None`).  The unchanged client is returned to make the frame explicit. -/
def clear_scenario (c : Client) :
    Client × List RpcCall × Except RpcError Unit :=
  let u := unary c
    clearScenarioMethod
    ClearScenarioRequest.mk encClearScenarioRequest decEmptyMessage
  (c, u.1, u.2.map fun _ => ())

/-- Method `DynamicNBI.create_platform` (`main.py` lines 75-87). -/
def create_platform (c : Client) (name typ : String)
    (coords : Int × Int × Int) :
    Client × List RpcCall × Except RpcError PlatformDefinition :=
  (c, unary c
    createPlatformMethod
    (mkPlatformMessage c name typ coords) encPlatform decPlatform)

/-- Method `DynamicNBI.create_node` (`main.py` lines 89-102). -/
def create_node (c : Client)
    (node_id platform_id iface_id transceiver_id : String) :
    Client × List RpcCall × Except RpcError NetworkNode :=
  (c, unary c
    createNodeMethod
    (mkNodeMessage node_id platform_id iface_id transceiver_id)
    encNode decNode)

/-- Method `DynamicNBI.create_link` (`main.py` lines 104-116). -/
def create_link (c : Client) (a_node a_iface b_node b_iface : String) :
    Client × List RpcCall × Except RpcError BidirectionalLink :=
  (c, unary c
    createLinkMethod
    (mkLinkMessage a_node a_iface b_node b_iface) encLink decLink)

/-- Method `DynamicNBI.get_scenario` (`main.py` lines 118-123). -/
def get_scenario (c : Client) :
    Client × List RpcCall × Except RpcError ScenarioSnapshot :=
  (c, unary c
    getScenarioMethod
    GetScenarioRequest.mk encGetScenarioRequest decSnapshot)

/-!
## Driver routine
-/

/-- Sequence two steps of the driver: accumulate issued calls; a raised error
aborts the rest, as an uncaught Python exception does. -/
def andThen (step : List RpcCall × Except RpcError α)
    (k : α → List RpcCall × Except RpcError β) :
    List RpcCall × Except RpcError β :=
  match step with
  | (tr, .error e) => (tr, .error e)
  | (tr, .ok a) =>
      let next := k a
      (tr ++ next.1, next.2)

/-- Driver `main` (`main.py` lines 155-185) after argument parsing and client
construction: the sequence of remote operations on a constructed client, and
the lines printed on success.  `skip_clear` and `transceiver_id` are the
`--skip-clear` and `--transceiver-id` flags. -/
def runMain (c : Client) (skip_clear : Bool) (transceiver_id : String) :
    List RpcCall × Except RpcError (List String) :=
  andThen (if skip_clear then ([], .ok ()) else (clear_scenario c).2) fun _ =>
  andThen (create_platform c "platform-ground" "GROUND_STATION"
      (6372000, 0, 0)).2 fun _ =>
  andThen (create_platform c "platform-sat" "SATELLITE"
      (6871000, 0, 0)).2 fun _ =>
  andThen (create_node c "node-ground" "platform-ground" "if-ground"
      transceiver_id).2 fun _ =>
  andThen (create_node c "node-sat" "platform-sat" "if-sat"
      transceiver_id).2 fun _ =>
  andThen (create_link c "node-ground" "if-ground" "node-sat" "if-sat").2
    fun _ =>
  andThen (get_scenario c).2 fun snapshot =>
  ([], .ok (["\nScenario snapshot:"]
    ++ print_platforms snapshot.platforms "  "
    ++ print_nodes snapshot.nodes "  "
    ++ print_links snapshot.links "  "))

/-!
## Round-trip lemmas for the wire codecs
-/

theorem decPoint_enc (p : CartesianPoint) (rest : Wire) :
    decPoint (encPoint p ++ rest) = some (p, rest) := by
  simp [encPoint, decPoint]

theorem decOptPoint_enc (o : Option CartesianPoint) (rest : Wire) :
    decOptPoint (encOptPoint o ++ rest) = some (o, rest) := by
  cases o with
  | none => simp [encOptPoint, decOptPoint]
  | some p => simp [encOptPoint, decOptPoint, decPoint_enc]

theorem decPlatform_enc (p : PlatformDefinition) (rest : Wire) :
    decPlatform (encPlatform p ++ rest) = some (p, rest) := by
  cases p with
  | mk n t m c => simp [encPlatform, decPlatform, decOptPoint_enc]

theorem decInterface_enc (i : NetworkInterface) (rest : Wire) :
    decInterface (encInterface i ++ rest) = some (i, rest) := by
  cases i with
  | mk iid w =>
      cases w with
      | mk p t => cases t with
        | mk tid => simp [encInterface, decInterface]

theorem decRepeatedAux_enc (enc : α → Wire)
    (dec : Wire → Option (α × Wire))
    (h : ∀ (a : α) (r : Wire), dec (enc a ++ r) = some (a, r))
    (xs : List α) (rest : Wire) :
    decRepeatedAux dec xs.length
      (xs.foldr (fun x acc => enc x ++ acc) [] ++ rest) = some (xs, rest) := by
  induction xs with
  | nil => simp [decRepeatedAux]
  | cons x xs ih =>
      simp only [List.foldr_cons, List.length_cons, List.append_assoc]
      simp [decRepeatedAux, h, ih]

theorem decRepeated_enc (enc : α → Wire)
    (dec : Wire → Option (α × Wire))
    (h : ∀ (a : α) (r : Wire), dec (enc a ++ r) = some (a, r))
    (xs : List α) (rest : Wire) :
    decRepeated dec (encRepeated enc xs ++ rest) = some (xs, rest) := by
  simp [encRepeated, decRepeated, decRepeatedAux_enc enc dec h]

theorem decNode_enc (n : NetworkNode) (rest : Wire) :
    decNode (encNode n ++ rest) = some (n, rest) := by
  cases n with
  | mk i t ifs =>
      simp [encNode, decNode,
        decRepeated_enc encInterface decInterface decInterface_enc]

theorem decLink_enc (l : BidirectionalLink) (rest : Wire) :
    decLink (encLink l ++ rest) = some (l, rest) := by
  cases l with
  | mk an atx arx bn btx brx => simp [encLink, decLink]

theorem decSnapshot_enc (s : ScenarioSnapshot) (rest : Wire) :
    decSnapshot (encSnapshot s ++ rest) = some (s, rest) := by
  cases s with
  | mk ps ns ls =>
      simp [encSnapshot, decSnapshot,
        decRepeated_enc encPlatform decPlatform decPlatform_enc,
        decRepeated_enc encNode decNode decNode_enc,
        decRepeated_enc encLink decLink decLink_enc]

theorem parse_enc_of_dec (enc : α → Wire) (dec : Wire → Option (α × Wire))
    (h : ∀ (a : α) (r : Wire), dec (enc a ++ r) = some (a, r)) (a : α) :
    parseMessage dec (enc a) = some a := by
  have hh := h a []
  rw [List.append_nil] at hh
  simp [parseMessage, hh]

/-!
## Lookup lemmas for the schema registry
-/

theorem findByName_eq_none (xs : List (String × α)) (k : String)
    (h : k ∉ xs.map Prod.fst) : findByName xs k = none := by
  induction xs with
  | nil => rfl
  | cons x xs ih =>
      cases x with
      | mk k' v =>
          simp only [List.map_cons, List.mem_cons] at h
          push_neg at h
          rw [findByName, if_neg fun hh => h.1 hh.symm]
          exact ih h.2

theorem findByName_isSome (xs : List (String × α)) (k : String) (v : α)
    (h : (k, v) ∈ xs) : ∃ v', findByName xs k = some v' := by
  induction xs with
  | nil => cases h
  | cons x xs ih =>
      cases x with
      | mk k' v' =>
          by_cases hk : k' = k
          · exact ⟨v', by rw [findByName, if_pos hk]⟩
          · have hmem : (k, v) ∈ xs := by
              rcases List.mem_cons.mp h with h1 | h2
              · injection h1 with e1 _
                exact absurd e1.symm hk
              · exact h2
            obtain ⟨v'', hv⟩ := ih hmem
            exact ⟨v'', by rw [findByName, if_neg hk]; exact hv⟩

theorem findByName_mem (xs : List (String × α)) (k : String) (v : α)
    (h : findByName xs k = some v) : (k, v) ∈ xs := by
  induction xs with
  | nil => cases h
  | cons x xs ih =>
      cases x with
      | mk k' v' =>
          by_cases hk : k' = k
          · subst hk
            rw [findByName, if_pos rfl] at h
            injection h with e
            subst e
            exact List.mem_cons_self _ _
          · rw [findByName, if_neg hk] at h
            exact List.mem_cons_of_mem _ (ih h)

/-!
## Method paths and concrete instances

The five fully-qualified method paths the wrappers invoke, and a concrete
pool, channels and clients used to exhibit the theorems on explicit inputs.
-/

/-- A pool holding the eight message types and the one enum that
`DynamicNBI.__init__` resolves (the content of `nbi_descriptor.pb`, which is
external data, restricted to the names the client uses). -/
def demoPool : DescriptorPool :=
  { messages :=
      [("aalyria.spacetime.api.common.PlatformDefinition",
        ⟨"aalyria.spacetime.api.common.PlatformDefinition"⟩),
       ("aalyria.spacetime.api.nbi.v1alpha.resources.NetworkNode",
        ⟨"aalyria.spacetime.api.nbi.v1alpha.resources.NetworkNode"⟩),
       ("aalyria.spacetime.api.nbi.v1alpha.resources.NetworkInterface",
        ⟨"aalyria.spacetime.api.nbi.v1alpha.resources.NetworkInterface"⟩),
       ("aalyria.spacetime.api.nbi.v1alpha.resources.BidirectionalLink",
        ⟨"aalyria.spacetime.api.nbi.v1alpha.resources.BidirectionalLink"⟩),
       ("aalyria.spacetime.api.common.TransceiverModelId",
        ⟨"aalyria.spacetime.api.common.TransceiverModelId"⟩),
       ("aalyria.spacetime.api.nbi.v1alpha.ClearScenarioRequest",
        ⟨"aalyria.spacetime.api.nbi.v1alpha.ClearScenarioRequest"⟩),
       ("aalyria.spacetime.api.nbi.v1alpha.GetScenarioRequest",
        ⟨"aalyria.spacetime.api.nbi.v1alpha.GetScenarioRequest"⟩),
       ("aalyria.spacetime.api.nbi.v1alpha.ScenarioSnapshot",
        ⟨"aalyria.spacetime.api.nbi.v1alpha.ScenarioSnapshot"⟩)],
    enums :=
      [("aalyria.spacetime.api.common.PlatformDefinition.MotionSource",
        ⟨"aalyria.spacetime.api.common.PlatformDefinition.MotionSource",
         [("UNKNOWN_SOURCE", 0)]⟩)] }

/-- Response bytes of a well-behaved test server: an empty snapshot for
`GetScenario`, an `Empty` for `ClearScenario`, and an echo of the request for
the create operations. -/
def demoResp (method : String) (request : Wire) : Wire :=
  if method = getScenarioMethod then encSnapshot ⟨[], [], []⟩
  else if method = clearScenarioMethod then []
  else request

/-- A channel that always answers within the deadline with `demoResp`. -/
def demoChannel : Channel := fun method request _ => .ok (demoResp method request)

/-- A constructed client over `demoChannel`, as `DynamicNBI.__init__` leaves
it: pool, prototypes and the resolved `UNKNOWN_SOURCE` number. -/
def demoClient : Client :=
  { channel := demoChannel, timeout := 10, pool := demoPool,
    PlatformDefinition_proto := ⟨"aalyria.spacetime.api.common.PlatformDefinition"⟩,
    NetworkNode_proto := ⟨"aalyria.spacetime.api.nbi.v1alpha.resources.NetworkNode"⟩,
    NetworkInterface_proto := ⟨"aalyria.spacetime.api.nbi.v1alpha.resources.NetworkInterface"⟩,
    BidirectionalLink_proto := ⟨"aalyria.spacetime.api.nbi.v1alpha.resources.BidirectionalLink"⟩,
    TransceiverModelId_proto := ⟨"aalyria.spacetime.api.common.TransceiverModelId"⟩,
    ClearScenarioRequest_proto := ⟨"aalyria.spacetime.api.nbi.v1alpha.ClearScenarioRequest"⟩,
    GetScenarioRequest_proto := ⟨"aalyria.spacetime.api.nbi.v1alpha.GetScenarioRequest"⟩,
    ScenarioSnapshot_proto := ⟨"aalyria.spacetime.api.nbi.v1alpha.ScenarioSnapshot"⟩,
    motion_unknown := 0 }

/-- A channel exhibiting the three failure outcomes, selected by method. -/
def failChannel : Channel := fun method _ _ =>
  if method = "timeout.example" then .timedOut
  else if method = "transport.example" then .transportFailure
  else .statusRejected 6 "duplicate identifier"

/-- The demo client over the failing channel. -/
def failClient : Client := { demoClient with channel := failChannel }

/-!
## Claims
-/

/-- C4: the platform printer is a pure, total function of the snapshot's
field values: its output is the header followed by one line per platform in
order, a platform with its optional coordinate missing gets the literal
placeholder `n/a` in place of the coordinate, and a platform with a
coordinate present gets the formatted coordinate triple. -/
theorem print_platforms_pure_with_placeholder
    (platforms : List PlatformDefinition) (indent : String) :
    print_platforms platforms indent =
      (indent ++ "Platforms:") ::
        platforms.map (fun p =>
          indent ++ "- " ++ p.name ++ " [" ++ p.type ++ "] coords="
            ++ formatCoord p.coordinates)
    ∧ formatCoord none = "n/a"
    ∧ ∀ pt : CartesianPoint, formatCoord (some pt) =
        "(" ++ fmtMeters pt.x_m ++ ", " ++ fmtMeters pt.y_m ++ ", "
          ++ fmtMeters pt.z_m ++ ") m" :=
  ⟨rfl, rfl, fun _ => rfl⟩

/-- C6: serializing any constructed request message (platform, node, link, or
either of the two empty requests) and deserializing the bytes through the
matching message type yields a message equal to the original in all set
fields. -/
theorem request_serialization_roundtrip :
    (∀ p : PlatformDefinition, parseMessage decPlatform (encPlatform p) = some p)
    ∧ (∀ n : NetworkNode, parseMessage decNode (encNode n) = some n)
    ∧ (∀ l : BidirectionalLink, parseMessage decLink (encLink l) = some l)
    ∧ (∀ q : ClearScenarioRequest,
        parseMessage decClearScenarioRequest (encClearScenarioRequest q) = some q)
    ∧ (∀ q : GetScenarioRequest,
        parseMessage decGetScenarioRequest (encGetScenarioRequest q) = some q) :=
  ⟨parse_enc_of_dec encPlatform decPlatform decPlatform_enc,
   parse_enc_of_dec encNode decNode decNode_enc,
   parse_enc_of_dec encLink decLink decLink_enc,
   fun _ => rfl, fun _ => rfl⟩

/-- C7: no wrapper operation modifies any client state: each of the five
wrappers returns the client component (channel, timeout, pool, prototypes and
resolved enum value) identical to the client it was invoked on. -/
theorem wrappers_leave_client_unchanged (c : Client) (name typ : String)
    (coords : Int × Int × Int)
    (node_id platform_id iface_id transceiver_id : String)
    (a_node a_iface b_node b_iface : String) :
    (clear_scenario c).1 = c
    ∧ (create_platform c name typ coords).1 = c
    ∧ (create_node c node_id platform_id iface_id transceiver_id).1 = c
    ∧ (create_link c a_node a_iface b_node b_iface).1 = c
    ∧ (get_scenario c).1 = c :=
  ⟨rfl, rfl, rfl, rfl, rfl⟩

/-- C8: every `BidirectionalLink` constructed by the create-link wrapper has
its receive-interface field equal to its transmit-interface field on each
endpoint, and the wrapper sends exactly that message: the caller cannot
request distinct transmit and receive interfaces. -/
theorem create_link_rx_equals_tx (c : Client)
    (a_node a_iface b_node b_iface : String) :
    (mkLinkMessage a_node a_iface b_node b_iface).a_rx_interface_id =
      (mkLinkMessage a_node a_iface b_node b_iface).a_tx_interface_id
    ∧ (mkLinkMessage a_node a_iface b_node b_iface).b_rx_interface_id =
      (mkLinkMessage a_node a_iface b_node b_iface).b_tx_interface_id
    ∧ (create_link c a_node a_iface b_node b_iface).2.1 =
      [⟨createLinkMethod, encLink (mkLinkMessage a_node a_iface b_node b_iface)⟩] :=
  ⟨rfl, rfl, rfl⟩

/-- C9: every `NetworkNode` constructed by the create-node wrapper has its
category field set to the fixed literal `ROUTER`, independent of the
arguments, and contains exactly one interface whose interface id,
owning-platform id and transceiver-model id equal the corresponding
arguments; the wrapper sends exactly that message. -/
theorem create_node_router_single_interface (c : Client)
    (node_id platform_id iface_id transceiver_id : String) :
    (mkNodeMessage node_id platform_id iface_id transceiver_id).type = "ROUTER"
    ∧ (mkNodeMessage node_id platform_id iface_id transceiver_id).node_interface
      = [⟨iface_id, ⟨platform_id, ⟨transceiver_id⟩⟩⟩]
    ∧ (create_node c node_id platform_id iface_id transceiver_id).2.1 =
      [⟨createNodeMethod,
        encNode (mkNodeMessage node_id platform_id iface_id transceiver_id)⟩] :=
  ⟨rfl, rfl, rfl⟩

/-- C10: the link printer prints, per link, only the node id and
transmit-interface id of each endpoint in the form
`a_node/a_tx <-> b_node/b_tx`; its output is invariant under any change of
the two receive-interface ids, so they never appear. -/
theorem print_links_tx_only (links : List BidirectionalLink) (indent : String)
    (f g : BidirectionalLink → String) :
    print_links links indent =
      (indent ++ "Links:") ::
        links.map (fun l =>
          indent ++ "- " ++ l.a_network_node_id ++ "/" ++ l.a_tx_interface_id
            ++ " <-> " ++ l.b_network_node_id ++ "/" ++ l.b_tx_interface_id)
    ∧ print_links
        (links.map fun l =>
          { l with a_rx_interface_id := f l, b_rx_interface_id := g l })
        indent
      = print_links links indent := by
  refine ⟨rfl, ?_⟩
  simp [print_links, List.map_map]

/-- C2: resolving a fully-qualified message-type name absent from the loaded
descriptor bundle fails with `SchemaLookupError` and never returns a
partially-usable handle; a present name resolves to a handle registered under
that name; resolving an absent enum name, or an absent value name of a
present enum, likewise fails with `SchemaLookupError`. -/
theorem schema_lookup_total (pool : DescriptorPool)
    (name enumName valueName : String) :
    (name ∉ pool.messages.map Prod.fst →
      resolveMessageType pool name = .error (.notFound name))
    ∧ (∀ d, (name, d) ∈ pool.messages →
        ∃ d', resolveMessageType pool name = .ok d'
          ∧ (name, d') ∈ pool.messages)
    ∧ (enumName ∉ pool.enums.map Prod.fst →
        resolveEnumValue pool enumName valueName = .error (.notFound enumName))
    ∧ ((∀ p ∈ pool.enums, p.1 = enumName →
          valueName ∉ p.2.values_by_name.map Prod.fst) →
        ∃ n, resolveEnumValue pool enumName valueName =
          .error (.notFound n)) := by
  refine ⟨fun h => ?_, fun d hd => ?_, fun h => ?_, fun h => ?_⟩
  · simp [resolveMessageType, findByName_eq_none pool.messages name h]
  · obtain ⟨d', hd'⟩ := findByName_isSome pool.messages name d hd
    exact ⟨d', by simp [resolveMessageType, hd'],
      findByName_mem pool.messages name d' hd'⟩
  · simp [resolveEnumValue, findEnumTypeByName,
      findByName_eq_none pool.enums enumName h]
  · cases heq : findByName pool.enums enumName with
    | none =>
        exact ⟨enumName, by simp [resolveEnumValue, findEnumTypeByName, heq]⟩
    | some ed =>
        have hmem := findByName_mem pool.enums enumName ed heq
        have hv := h (enumName, ed) hmem rfl
        have hnone := findByName_eq_none ed.values_by_name valueName hv
        exact ⟨valueName,
          by simp [resolveEnumValue, findEnumTypeByName, heq, hnone]⟩

/-- Witness for C2 on the concrete pool: an absent message name and an absent
enum name fail, the platform type name resolves, and an unknown value of the
motion-source enum fails. -/
theorem schema_lookup_total_witness :
    resolveMessageType demoPool "aalyria.spacetime.api.common.Missing" =
      .error (.notFound "aalyria.spacetime.api.common.Missing")
    ∧ (∃ d', resolveMessageType demoPool
          "aalyria.spacetime.api.common.PlatformDefinition" = .ok d'
        ∧ ("aalyria.spacetime.api.common.PlatformDefinition", d')
            ∈ demoPool.messages)
    ∧ resolveEnumValue demoPool "aalyria.spacetime.api.common.MissingEnum"
        "UNKNOWN_SOURCE" =
      .error (.notFound "aalyria.spacetime.api.common.MissingEnum")
    ∧ ∃ n, resolveEnumValue demoPool
        "aalyria.spacetime.api.common.PlatformDefinition.MotionSource"
        "NOT_A_VALUE" = .error (.notFound n) :=
  ⟨(schema_lookup_total demoPool "aalyria.spacetime.api.common.Missing"
      "x" "x").1 (by decide),
   (schema_lookup_total demoPool
      "aalyria.spacetime.api.common.PlatformDefinition" "x" "x").2.1
     ⟨"aalyria.spacetime.api.common.PlatformDefinition"⟩ (by decide),
   (schema_lookup_total demoPool "x"
      "aalyria.spacetime.api.common.MissingEnum" "UNKNOWN_SOURCE").2.2.1
     (by decide),
   (schema_lookup_total demoPool "x"
      "aalyria.spacetime.api.common.PlatformDefinition.MotionSource"
      "NOT_A_VALUE").2.2.2 (by decide)⟩

/-- C3: a remote call whose channel outcome is a timeout fails with
`RpcTimeoutError` (the call is a total function of the outcome, so it never
hangs), a connection failure fails with `RpcTransportError`, and a remote
application-level rejection fails with `RpcStatusError` carrying the remote
status code and message. -/
theorem unary_failure_taxonomy {ρ σ : Type} (c : Client) (method : String)
    (request : ρ) (enc : ρ → Wire) (dec : Wire → Option (σ × Wire)) :
    (c.channel method (enc request) c.timeout = .timedOut →
      (unary c method request enc dec).2 = .error .RpcTimeoutError)
    ∧ (c.channel method (enc request) c.timeout = .transportFailure →
      (unary c method request enc dec).2 = .error .RpcTransportError)
    ∧ (∀ code msg,
        c.channel method (enc request) c.timeout = .statusRejected code msg →
        (unary c method request enc dec).2 =
          .error (.RpcStatusError code msg)) := by
  refine ⟨fun h => ?_, fun h => ?_, fun code msg h => ?_⟩ <;> simp [unary, h]

/-- Witness for C3 on the failing channel: the three failure outcomes map to
the three error values. -/
theorem unary_failure_taxonomy_witness :
    (unary failClient "timeout.example" ClearScenarioRequest.mk
      encClearScenarioRequest decEmptyMessage).2 = .error .RpcTimeoutError
    ∧ (unary failClient "transport.example" ClearScenarioRequest.mk
        encClearScenarioRequest decEmptyMessage).2 =
      .error .RpcTransportError
    ∧ (unary failClient "status.example" ClearScenarioRequest.mk
        encClearScenarioRequest decEmptyMessage).2 =
      .error (.RpcStatusError 6 "duplicate identifier") :=
  ⟨(unary_failure_taxonomy failClient "timeout.example" ClearScenarioRequest.mk
      encClearScenarioRequest decEmptyMessage).1 (by decide),
   (unary_failure_taxonomy failClient "transport.example"
      ClearScenarioRequest.mk encClearScenarioRequest decEmptyMessage).2.1
     (by decide),
   (unary_failure_taxonomy failClient "status.example" ClearScenarioRequest.mk
      encClearScenarioRequest decEmptyMessage).2.2 6 "duplicate identifier"
     (by decide)⟩

/-- C5: each of the five wrapper operations issues exactly one unary remote
call — no retries, no backoff — whose recorded request is the wire
serialization of the message it constructs; and when the channel delivers
response bytes that deserialize as the designated response type, that freshly
deserialized instance is the value the call returns (the clear-scenario
wrapper then discards its `Empty` and returns nothing). -/
theorem wrappers_single_call_serialization (c : Client) (name typ : String)
    (coords : Int × Int × Int)
    (node_id platform_id iface_id transceiver_id : String)
    (a_node a_iface b_node b_iface : String) :
    ((clear_scenario c).2.1 = [⟨clearScenarioMethod, []⟩]
      ∧ ∀ data e, c.channel clearScenarioMethod [] c.timeout = .ok data →
          parseMessage decEmptyMessage data = some e →
          (unary c clearScenarioMethod ClearScenarioRequest.mk
            encClearScenarioRequest decEmptyMessage).2 = .ok e
          ∧ (clear_scenario c).2.2 = .ok ())
    ∧ ((create_platform c name typ coords).2.1 =
        [⟨createPlatformMethod,
          encPlatform (mkPlatformMessage c name typ coords)⟩]
      ∧ ∀ data r,
          c.channel createPlatformMethod
            (encPlatform (mkPlatformMessage c name typ coords)) c.timeout =
            .ok data →
          parseMessage decPlatform data = some r →
          (create_platform c name typ coords).2.2 = .ok r)
    ∧ ((create_node c node_id platform_id iface_id transceiver_id).2.1 =
        [⟨createNodeMethod,
          encNode (mkNodeMessage node_id platform_id iface_id
            transceiver_id)⟩]
      ∧ ∀ data r,
          c.channel createNodeMethod
            (encNode (mkNodeMessage node_id platform_id iface_id
              transceiver_id)) c.timeout = .ok data →
          parseMessage decNode data = some r →
          (create_node c node_id platform_id iface_id transceiver_id).2.2 =
            .ok r)
    ∧ ((create_link c a_node a_iface b_node b_iface).2.1 =
        [⟨createLinkMethod,
          encLink (mkLinkMessage a_node a_iface b_node b_iface)⟩]
      ∧ ∀ data r,
          c.channel createLinkMethod
            (encLink (mkLinkMessage a_node a_iface b_node b_iface))
            c.timeout = .ok data →
          parseMessage decLink data = some r →
          (create_link c a_node a_iface b_node b_iface).2.2 = .ok r)
    ∧ ((get_scenario c).2.1 = [⟨getScenarioMethod, []⟩]
      ∧ ∀ data r, c.channel getScenarioMethod [] c.timeout = .ok data →
          parseMessage decSnapshot data = some r →
          (get_scenario c).2.2 = .ok r) := by
  refine ⟨⟨rfl, fun data e h hp => ?_⟩, ⟨rfl, fun data r h hp => ?_⟩,
    ⟨rfl, fun data r h hp => ?_⟩, ⟨rfl, fun data r h hp => ?_⟩,
    ⟨rfl, fun data r h hp => ?_⟩⟩
  · refine ⟨?_, ?_⟩ <;>
      simp [clear_scenario, unary, encClearScenarioRequest, h, hp, Except.map]
  · simp [create_platform, unary, h, hp]
  · simp [create_node, unary, h, hp]
  · simp [create_link, unary, h, hp]
  · simp [get_scenario, unary, encGetScenarioRequest, h, hp]

/-- Witness for C5 on the demo client, whose channel answers `ClearScenario`
with an `Empty`, echoes the create requests, and answers `GetScenario` with
an empty snapshot. -/
theorem wrappers_single_call_serialization_witness :
    ((unary demoClient clearScenarioMethod ClearScenarioRequest.mk
        encClearScenarioRequest decEmptyMessage).2 = .ok ⟨⟩
      ∧ (clear_scenario demoClient).2.2 = .ok ())
    ∧ (create_platform demoClient "platform-ground" "GROUND_STATION"
        (6372000, 0, 0)).2.2 =
      .ok (mkPlatformMessage demoClient "platform-ground" "GROUND_STATION"
        (6372000, 0, 0))
    ∧ (create_node demoClient "node-ground" "platform-ground" "if-ground"
        "trx-ku").2.2 =
      .ok (mkNodeMessage "node-ground" "platform-ground" "if-ground"
        "trx-ku")
    ∧ (create_link demoClient "node-ground" "if-ground" "node-sat"
        "if-sat").2.2 =
      .ok (mkLinkMessage "node-ground" "if-ground" "node-sat" "if-sat")
    ∧ (get_scenario demoClient).2.2 = .ok ⟨[], [], []⟩ := by
  have w := wrappers_single_call_serialization demoClient "platform-ground"
    "GROUND_STATION" (6372000, 0, 0) "node-ground" "platform-ground"
    "if-ground" "trx-ku" "node-ground" "if-ground" "node-sat" "if-sat"
  exact ⟨w.1.2 [] ⟨⟩ (by decide) rfl,
    w.2.1.2 _ _ (by decide) (parse_enc_of_dec _ _ decPlatform_enc _),
    w.2.2.1.2 _ _ (by decide) (parse_enc_of_dec _ _ decNode_enc _),
    w.2.2.2.1.2 _ _ (by decide) (parse_enc_of_dec _ _ decLink_enc _),
    w.2.2.2.2.2 _ _ (by decide)
      (parse_enc_of_dec encSnapshot decSnapshot decSnapshot_enc ⟨[], [], []⟩)⟩

/-- C1: on a channel that answers every call, the driver routine issues
exactly clear-scenario, two create-platform calls, two create-node calls, one
create-link call and one get-snapshot call, in that order, and then prints
the snapshot's platforms, nodes and links; with the skip-clear flag set the
clear-scenario call is omitted and everything else is unchanged. -/
theorem main_call_sequence (c : Client) (skip_clear : Bool)
    (transceiver_id : String) (resp : String → Wire → Wire)
    (e : EmptyMessage) (p1 p2 : PlatformDefinition) (n1 n2 : NetworkNode)
    (lk : BidirectionalLink) (snap : ScenarioSnapshot)
    (hch : ∀ m req, c.channel m req c.timeout = .ok (resp m req))
    (he : parseMessage decEmptyMessage (resp clearScenarioMethod []) = some e)
    (hp1 : parseMessage decPlatform
      (resp createPlatformMethod (encPlatform (mkPlatformMessage c
        "platform-ground" "GROUND_STATION" (6372000, 0, 0)))) = some p1)
    (hp2 : parseMessage decPlatform
      (resp createPlatformMethod (encPlatform (mkPlatformMessage c
        "platform-sat" "SATELLITE" (6871000, 0, 0)))) = some p2)
    (hn1 : parseMessage decNode
      (resp createNodeMethod (encNode (mkNodeMessage "node-ground"
        "platform-ground" "if-ground" transceiver_id))) = some n1)
    (hn2 : parseMessage decNode
      (resp createNodeMethod (encNode (mkNodeMessage "node-sat"
        "platform-sat" "if-sat" transceiver_id))) = some n2)
    (hl : parseMessage decLink
      (resp createLinkMethod (encLink (mkLinkMessage "node-ground"
        "if-ground" "node-sat" "if-sat"))) = some lk)
    (hs : parseMessage decSnapshot (resp getScenarioMethod []) = some snap) :
    runMain c skip_clear transceiver_id =
      ((if skip_clear then [] else [⟨clearScenarioMethod, []⟩])
        ++ [⟨createPlatformMethod, encPlatform (mkPlatformMessage c
              "platform-ground" "GROUND_STATION" (6372000, 0, 0))⟩,
            ⟨createPlatformMethod, encPlatform (mkPlatformMessage c
              "platform-sat" "SATELLITE" (6871000, 0, 0))⟩,
            ⟨createNodeMethod, encNode (mkNodeMessage "node-ground"
              "platform-ground" "if-ground" transceiver_id)⟩,
            ⟨createNodeMethod, encNode (mkNodeMessage "node-sat"
              "platform-sat" "if-sat" transceiver_id)⟩,
            ⟨createLinkMethod, encLink (mkLinkMessage "node-ground"
              "if-ground" "node-sat" "if-sat")⟩,
            ⟨getScenarioMethod, []⟩],
       .ok (["\nScenario snapshot:"]
         ++ print_platforms snap.platforms "  "
         ++ print_nodes snap.nodes "  "
         ++ print_links snap.links "  ")) := by
  cases skip_clear <;>
    simp [runMain, andThen, clear_scenario, create_platform, create_node,
      create_link, get_scenario, unary, encClearScenarioRequest,
      encGetScenarioRequest, hch, he, hp1, hp2, hn1, hn2, hl, hs, Except.map,
      -Prod.mk_zero_zero]

/-- Witness for C1: running the driver on the demo client without the
skip-clear flag yields the seven calls in order and the printout of the
empty snapshot. -/
theorem main_call_sequence_witness :
    runMain demoClient false "trx-ku" =
      ([⟨clearScenarioMethod, []⟩,
        ⟨createPlatformMethod, encPlatform (mkPlatformMessage demoClient
          "platform-ground" "GROUND_STATION" (6372000, 0, 0))⟩,
        ⟨createPlatformMethod, encPlatform (mkPlatformMessage demoClient
          "platform-sat" "SATELLITE" (6871000, 0, 0))⟩,
        ⟨createNodeMethod, encNode (mkNodeMessage "node-ground"
          "platform-ground" "if-ground" "trx-ku")⟩,
        ⟨createNodeMethod, encNode (mkNodeMessage "node-sat" "platform-sat"
          "if-sat" "trx-ku")⟩,
        ⟨createLinkMethod, encLink (mkLinkMessage "node-ground" "if-ground"
          "node-sat" "if-sat")⟩,
        ⟨getScenarioMethod, []⟩],
       .ok (["\nScenario snapshot:"]
         ++ print_platforms [] "  " ++ print_nodes [] "  "
         ++ print_links [] "  ")) :=
  main_call_sequence demoClient false "trx-ku" demoResp ⟨⟩
    (mkPlatformMessage demoClient "platform-ground" "GROUND_STATION"
      (6372000, 0, 0))
    (mkPlatformMessage demoClient "platform-sat" "SATELLITE"
      (6871000, 0, 0))
    (mkNodeMessage "node-ground" "platform-ground" "if-ground" "trx-ku")
    (mkNodeMessage "node-sat" "platform-sat" "if-sat" "trx-ku")
    (mkLinkMessage "node-ground" "if-ground" "node-sat" "if-sat")
    ⟨[], [], []⟩
    (fun m req => rfl) (by decide) (by decide) (by decide) (by decide)
    (by decide) (by decide) (by decide)
